import Mathlib

/-!
Verification of the error-dashboard aggregation logic of
src/tools/error_dashboard.py: the time-series bucketing routine
build_time_series (lines 34-100) and the pure aggregation part of the
/api/errors endpoint get_errors (lines 1088-1231).

The Python code is shallowly embedded: dictionaries returned by the
Couchbase queries become structures with Option-typed fields (none models
a missing or null JSON field), Python string operations are re-implemented
over lists of characters, datetime.fromisoformat becomes an explicit
ISO-8601 parser returning Option, and the float value round(x, n) is
represented exactly by its value scaled by 10^n as an integer, rounded
half-to-even on the exact rational (the code only ever divides integers).
The external HTTP query layer is not embedded; get_errors is modelled as a
pure function of the query result rows, which is exactly the code after
its five query_couchbase calls.
-/

namespace ErrorDashboard

/-- Python string comparison on lists of characters: lexicographic by
code point, shorter prefix first. Models how sorted() compares the
bucket-label strings in build_time_series line 86. -/
def charListLtB : List Char → List Char → Bool
  | [], [] => false
  | [], _ :: _ => true
  | _ :: _, [] => false
  | a :: as, b :: bs =>
    if a < b then true
    else if b < a then false
    else charListLtB as bs

/-- Python s1 < s2 for strings. -/
def strLtB (s t : String) : Bool := charListLtB s.data t.data

/-- Python s1 <= s2 for strings (total order, negation of strict gt). -/
def keyLeB (a b : String) : Bool := !(charListLtB b.data a.data)

/-- Proposition form of the ascending-label order used by sorted(). -/
def labelLt (a b : String) : Prop := strLtB a b = true

/-- Python ts.replace('Z', '+00:00') (line 59 and 73): every occurrence
of the character Z is replaced by the six characters +00:00. -/
def pyReplaceZ (s : String) : String :=
  ⟨s.data.foldr (fun c acc => if c = 'Z' then '+' :: '0' :: '0' :: ':' :: '0' :: '0' :: acc else c :: acc) []⟩

/-- Decimal digit test for a character. -/
def isDigitChar (c : Char) : Bool := 48 ≤ c.toNat && c.toNat ≤ 57

/-- Numeric value of a decimal digit character. -/
def digitVal (c : Char) : Nat := c.toNat - 48

/-- Zero-padded two-digit decimal rendering, as produced by the strftime
directives %H, %M, %m, %d for their (always two-digit) field values. -/
def twoDigit (n : Nat) : String :=
  ⟨[Char.ofNat (48 + n / 10 % 10), Char.ofNat (48 + n % 10)]⟩

/-- The naive field content of a parsed Python datetime. Only the fields
that the dashboard's strftime formats read are kept, plus seconds, which
the parser validates. A parsed timezone offset is validated but dropped,
because strftime on an aware datetime formats the stored (not converted)
fields. -/
structure PyDateTime where
  year : Nat
  month : Nat
  day : Nat
  hour : Nat
  minute : Nat
  second : Nat
deriving DecidableEq, Repr

/-- Gregorian leap-year rule used by Python's datetime validation. -/
def isLeapYear (y : Nat) : Bool := (y % 4 = 0 && y % 100 ≠ 0) || y % 400 = 0

/-- Days in a month, as validated by the datetime constructor. -/
def daysInMonth (y m : Nat) : Nat :=
  if m = 2 then (if isLeapYear y then 29 else 28)
  else if m = 4 ∨ m = 6 ∨ m = 9 ∨ m = 11 then 30
  else 31

/-- Range validation performed by the datetime constructor: a parse
succeeds only when every field is inside its calendar range. -/
def mkDT (y mo d h mi s : Nat) : Option PyDateTime :=
  if 1 ≤ y ∧ y ≤ 9999 ∧ 1 ≤ mo ∧ mo ≤ 12 ∧ 1 ≤ d ∧ d ≤ daysInMonth y mo
     ∧ h ≤ 23 ∧ mi ≤ 59 ∧ s ≤ 59
  then some ⟨y, mo, d, h, mi, s⟩ else none

/-- Accepts an optional trailing UTC-offset suffix of the form
sign HH:MM with a valid offset, or the empty remainder. -/
def parseTzSuffix : List Char → Bool
  | [] => true
  | s :: o1 :: o2 :: ':' :: o3 :: o4 :: [] =>
    (s = '+' || s = '-') && isDigitChar o1 && isDigitChar o2
      && isDigitChar o3 && isDigitChar o4
      && decide (digitVal o1 * 10 + digitVal o2 ≤ 23)
      && decide (digitVal o3 * 10 + digitVal o4 ≤ 59)
  | _ => false

/-- Accepts an optional fractional-seconds part (a dot followed by one to
six digits) and then an optional UTC offset. -/
def parseFracSuffix : List Char → Bool
  | '.' :: rest =>
    let ds := rest.takeWhile isDigitChar
    decide (1 ≤ ds.length) && decide (ds.length ≤ 6) && parseTzSuffix (rest.drop ds.length)
  | rest => parseTzSuffix rest

/-- Parses the time-of-day part HH:MM[:SS[.ffffff]][+HH:MM], returning
the raw (not yet range-checked) hour, minute and second fields. -/
def parseTimePart : List Char → Option (Nat × Nat × Nat)
  | h1 :: h2 :: ':' :: m1 :: m2 :: rest =>
    if isDigitChar h1 && isDigitChar h2 && isDigitChar m1 && isDigitChar m2 then
      let hh := digitVal h1 * 10 + digitVal h2
      let mm := digitVal m1 * 10 + digitVal m2
      match rest with
      | ':' :: s1 :: s2 :: rest2 =>
        if isDigitChar s1 && isDigitChar s2 then
          if parseFracSuffix rest2 then some (hh, mm, digitVal s1 * 10 + digitVal s2) else none
        else none
      | rest2 => if parseTzSuffix rest2 then some (hh, mm, 0) else none
    else none
  | _ => none

/-- Parses the raw fields of an ISO-8601 string
YYYY-MM-DD[sep HH:MM[:SS[.ffffff]][+HH:MM]] with sep in {T, space}. -/
def parseFields (cs : List Char) : Option (Nat × Nat × Nat × Nat × Nat × Nat) :=
  match cs with
  | y1 :: y2 :: y3 :: y4 :: '-' :: mo1 :: mo2 :: '-' :: d1 :: d2 :: rest =>
    if isDigitChar y1 && isDigitChar y2 && isDigitChar y3 && isDigitChar y4
       && isDigitChar mo1 && isDigitChar mo2 && isDigitChar d1 && isDigitChar d2 then
      let y := digitVal y1 * 1000 + digitVal y2 * 100 + digitVal y3 * 10 + digitVal y4
      let mo := digitVal mo1 * 10 + digitVal mo2
      let d := digitVal d1 * 10 + digitVal d2
      match rest with
      | [] => some (y, mo, d, 0, 0, 0)
      | sep :: timeCs =>
        if sep = 'T' || sep = ' ' then
          (parseTimePart timeCs).map (fun t => (y, mo, d, t.1, t.2.1, t.2.2))
        else none
    else none
  | _ => none

/-- Model of datetime.fromisoformat (line 59 and 73): parse the ISO-8601
forms the dashboard data uses and validate every field's range; any
failure yields none (the Python exception, caught by the bare except). -/
def fromisoformat (s : String) : Option PyDateTime :=
  match parseFields s.data with
  | none => none
  | some (y, mo, d, h, mi, se) => mkDT y mo d h mi se

/-- Lines 39-46 of build_time_series: choose the strftime format from the
requested range; every value other than hour and day (week, month, all,
or anything else) selects the month/day format. -/
def bucket_format (time_range : String) : String :=
  if time_range = "hour" then "%H:%M"
  else if time_range = "day" then "%H:00"
  else if time_range = "week" then "%m/%d"
  else "%m/%d"

/-- Python dt.strftime(fmt) for exactly the three formats the dashboard
selects; each field prints as two zero-padded digits. -/
def strftime (fmt : String) (dt : PyDateTime) : String :=
  if fmt = "%H:%M" then twoDigit dt.hour ++ ":" ++ twoDigit dt.minute
  else if fmt = "%H:00" then twoDigit dt.hour ++ ":00"
  else if fmt = "%m/%d" then twoDigit dt.month ++ "/" ++ twoDigit dt.day
  else ""

/-- The query start point chosen by get_errors lines 1092-1102. The four
recognized ranges subtract a timedelta from utcnow; every other value
uses the fixed date 2020-01-01. The subtraction is kept symbolic (an
offset from now) since only the selected branch flows into the claims. -/
inductive StartSpec where
  | hoursBefore (n : Nat)
  | daysBefore (n : Nat)
  | fixedDate (y mo d : Nat)
deriving DecidableEq, Repr

/-- Lines 1092-1102 of get_errors: the if/elif chain on the range
parameter selecting the query start. -/
def query_start (time_range : String) : StartSpec :=
  if time_range = "hour" then .hoursBefore 1
  else if time_range = "day" then .daysBefore 1
  else if time_range = "week" then .daysBefore 7
  else if time_range = "month" then .daysBefore 30
  else .fixedDate 2020 1 1

/-- The four event types produced by the flattening loops of get_errors
(lines 1155-1199): bug, failure, error (response-pair error), cli. -/
inductive ErrType where
  | bug
  | failure
  | error
  | cli
deriving DecidableEq, Repr

/-- A flat error event as built by get_errors and consumed by
build_time_series. Fields that only some of the four flattening loops
emit are Option-typed with none meaning the dictionary key is absent. -/
structure ErrorEvent where
  type : ErrType
  bugType : Option String := none
  timestamp : String := ""
  sessionId : String := ""
  pairIndex : Int := 0
  description : String := ""
  details : String := ""
  debugContext : Option String := none
  reportedBy : Option String := none
  command : Option String := none
  exitCode : Option Int := none
  wasAutoExecuted : Option Bool := none
  wasWhitelisted : Option Bool := none
deriving DecidableEq, Repr

/-- The extensionInfo sub-document of a session row. In the embedding,
none at the SessionStat level models a missing, null or empty (hence
falsy) dictionary, and currentExtension = none models a non-empty
dictionary without that key, which line 1215 defaults to 1. -/
structure ExtensionInfo where
  currentExtension : Option Int := none
deriving DecidableEq, Repr

/-- One row of the session_stats query (lines 1138-1144): id, updatedAt,
token counts and the three session-type markers. -/
structure SessionStat where
  id : Option String := none
  updatedAt : String := ""
  tokensIn : Option Int := none
  tokensOut : Option Int := none
  extensionInfo : Option ExtensionInfo := none
  parentSessionId : Option String := none
  handoffToSessionId : Option String := none
deriving DecidableEq, Repr

/-- The per-bucket accumulator dictionary of build_time_series (lines
49-52). The clis field models the key added on demand by line 61 when a
cli event is counted; sessions is the set of distinct session ids, kept
as a duplicate-free list. -/
structure BucketData where
  bugs : Nat := 0
  failures : Nat := 0
  errors : Nat := 0
  clis : Nat := 0
  sessions : List String := []
  tokensIn : Int := 0
  tokensOut : Int := 0
  totalSizeBytes : Int := 0
deriving DecidableEq, Repr

/-- The time_buckets defaultdict: its key set (duplicate-free, in
insertion order) together with the total content function; absent keys
map to the default accumulator. -/
structure Buckets where
  keys : List String
  data : String → BucketData

/-- The empty defaultdict. -/
def Buckets.init : Buckets := ⟨[], fun _ => {}⟩

/-- Dictionary access-and-assign time_buckets[k] = f(time_buckets[k]):
creates the key on first access, then updates its value. -/
def Buckets.update (b : Buckets) (k : String) (f : BucketData → BucketData) : Buckets :=
  { keys := if k ∈ b.keys then b.keys else b.keys ++ [k],
    data := fun q => if q = k then f (b.data k) else b.data q }

/-- Python set.add on the bucket's session set (lines 62 and 80). -/
def addSession (sid : String) (d : BucketData) : BucketData :=
  if sid ∈ d.sessions then d else { d with sessions := d.sessions ++ [sid] }

/-- Line 61: increment the counter named by the pluralized event type. -/
def incType : ErrType → BucketData → BucketData
  | .bug, d => { d with bugs := d.bugs + 1 }
  | .failure, d => { d with failures := d.failures + 1 }
  | .error, d => { d with errors := d.errors + 1 }
  | .cli, d => { d with clis := d.clis + 1 }

/-- Read the counter that incType t writes. -/
def countTy : ErrType → BucketData → Nat
  | .bug, d => d.bugs
  | .failure, d => d.failures
  | .error, d => d.errors
  | .cli, d => d.clis

/-- The bucket label an event lands in, if any: skip an empty timestamp
(line 56), replace Z, parse, format (lines 59-60). -/
def bucketOf (fmt : String) (e : ErrorEvent) : Option String :=
  if e.timestamp = "" then none
  else (fromisoformat (pyReplaceZ e.timestamp)).map (strftime fmt)

/-- Lines 54-64: one iteration of the event loop. A missing timestamp or
a parse failure leaves the buckets unchanged (continue / except: pass);
otherwise the event's type counter is incremented and its session id
added in the bucket named by its formatted timestamp. -/
def step_event (fmt : String) (b : Buckets) (e : ErrorEvent) : Buckets :=
  match bucketOf fmt e with
  | none => b
  | some k => b.update k (fun d => addSession e.sessionId (incType e.type d))

/-- Lines 67-82: one iteration of the session-stats loop. tokensIn and
tokensOut fall back to 0 when missing or null (the get/or chain); the
byte size estimate is four bytes per token; the session id joins the
bucket's session set. -/
def step_stat (fmt : String) (b : Buckets) (s : SessionStat) : Buckets :=
  if s.updatedAt = "" then b
  else
    match fromisoformat (pyReplaceZ s.updatedAt) with
    | none => b
    | some dt =>
      let tin := s.tokensIn.getD 0
      let tout := s.tokensOut.getD 0
      b.update (strftime fmt dt) (fun d =>
        addSession (s.id.getD "")
          { d with tokensIn := d.tokensIn + tin,
                   tokensOut := d.tokensOut + tout,
                   totalSizeBytes := d.totalSizeBytes + (tin + tout) * 4 })

/-- The fully populated time_buckets dictionary: the event loop followed
by the session-stats loop. -/
def time_buckets (fmt : String) (errors : List ErrorEvent) (session_stats : List SessionStat) : Buckets :=
  session_stats.foldl (step_stat fmt) (errors.foldl (step_event fmt) Buckets.init)

/-- Exact half-to-even rounding of the fraction num/den (den positive),
the rounding Python's round applies; used scaled so that round(x, n) is
represented by this value at numerator 10^n * x. -/
def roundHalfEven (num den : Int) : Int :=
  let q := num.fdiv den
  let r := num - q * den
  if 2 * r < den then q
  else if den < 2 * r then q + 1
  else if q % 2 = 0 then q else q + 1

/-- One element of the list build_time_series returns (lines 89-98).
round(total_errors / session_count, 2) is represented exactly by its
value in hundredths, and round(bytes / session_count / 1024, 1) by its
value in tenths. The structure has exactly the emitted keys: period,
bugs, failures, errors, avgPerSession, tokensIn, tokensOut,
avgSessionSizeKB; there is no cli field. -/
structure TimeBucketOut where
  period : String
  bugs : Nat
  failures : Nat
  errors : Nat
  avgPerSessionHundredths : Int
  tokensIn : Int
  tokensOut : Int
  avgSessionSizeKBTenths : Int
deriving DecidableEq, Repr

/-- Lines 87-98: the summary row for one bucket. session_count is
len(sessions) or 1, total_errors sums only bugs, failures and errors
(line 88) - the clis counter is not included and is not emitted. -/
def mkSummary (period : String) (d : BucketData) : TimeBucketOut :=
  let session_count : Nat := if d.sessions.length = 0 then 1 else d.sessions.length
  let total_errors : Nat := d.bugs + d.failures + d.errors
  { period := period,
    bugs := d.bugs,
    failures := d.failures,
    errors := d.errors,
    avgPerSessionHundredths := roundHalfEven (100 * (total_errors : Int)) (session_count : Int),
    tokensIn := d.tokensIn,
    tokensOut := d.tokensOut,
    avgSessionSizeKBTenths := roundHalfEven (10 * d.totalSizeBytes) ((session_count : Int) * 1024) }

/-- Lines 34-100: build_time_series. The total_sessions argument is
accepted and, as in the source, never read. sorted(time_buckets.items())
is modelled by sorting the (distinct) keys with Python's string order;
items compare by key first, and keys are unique, so values never take
part in the comparison. -/
def build_time_series (errors : List ErrorEvent) (time_range : String)
    (total_sessions : Nat) (session_stats : List SessionStat) : List TimeBucketOut :=
  let fmt := bucket_format time_range
  let b := time_buckets fmt errors session_stats
  (List.insertionSort (fun a b => keyLeB a b = true) b.keys).map (fun k => mkSummary k (b.data k))

/-- The time fields a label format exposes, for stating that label order
is chronological at the label granularity: hour and minute for %H:%M,
hour only for %H:00, month and day for %m/%d. -/
def chronoProj (fmt : String) (dt : PyDateTime) : Nat × Nat :=
  if fmt = "%H:%M" then (dt.hour, dt.minute)
  else if fmt = "%H:00" then (dt.hour, 0)
  else (dt.month, dt.day)

/-- Lexicographic order on a pair of numeric time fields. -/
def pairLt (a b : Nat × Nat) : Prop := a.1 < b.1 ∨ (a.1 = b.1 ∧ a.2 < b.2)

/-- One row of the bugs query (lines 1106-1111). Option fields model
keys that can be missing from a result row. -/
structure BugRow where
  sessionId : Option String := none
  bugId : Option String := none
  bugType : Option String := none
  description : Option String := none
  timestamp : Option String := none
  pairIndex : Option Int := none
  debugContext : Option String := none
  reportedBy : Option String := none
deriving DecidableEq, Repr

/-- One row of the operation-failures query (lines 1113-1118). -/
structure FailureRow where
  sessionId : Option String := none
  failureId : Option String := none
  operationType : Option String := none
  error : Option String := none
  timestamp : Option String := none
  filePath : Option String := none
  pairIndex : Option Int := none
  debugContext : Option String := none
deriving DecidableEq, Repr

/-- One row of the response-pair-errors query (lines 1120-1125). -/
structure PairErrorRow where
  sessionId : Option String := none
  pairIndex : Option Int := none
  status : Option String := none
  errorMessage : Option String := none
  timestamp : Option String := none
deriving DecidableEq, Repr

/-- One row of the CLI-failures query (lines 1128-1134). -/
structure CliRow where
  sessionId : Option String := none
  cliId : Option String := none
  command : Option String := none
  error : Option String := none
  timestamp : Option String := none
  pairIndex : Option Int := none
  cwd : Option String := none
  durationMs : Option Int := none
  wasAutoExecuted : Option Bool := none
  wasWhitelisted : Option Bool := none
  exitCode : Option Int := none
  stderr : Option String := none
deriving DecidableEq, Repr

/-- Python str of an integer, for the f-string interpolations. -/
def pyStrOfInt (i : Int) : String := toString i

/-- The text Python interpolates for x.get('pairIndex', '?'). -/
def pairIndexText (i : Option Int) : String :=
  match i with
  | some v => pyStrOfInt v
  | none => "?"

/-- Lines 1155-1165: the event dictionary appended for one bug row. -/
def bugEvent (b : BugRow) : ErrorEvent :=
  { type := .bug,
    bugType := some (b.bugType.getD "unknown"),
    timestamp := b.timestamp.getD "",
    sessionId := b.sessionId.getD "",
    pairIndex := b.pairIndex.getD 0,
    description := "[" ++ b.bugType.getD "unknown" ++ "] " ++ b.description.getD "",
    details := "Pair #" ++ pairIndexText b.pairIndex,
    debugContext := b.debugContext,
    reportedBy := some (b.reportedBy.getD "script") }

/-- Lines 1167-1175: the event dictionary appended for one failure row. -/
def failureEvent (f : FailureRow) : ErrorEvent :=
  { type := .failure,
    timestamp := f.timestamp.getD "",
    sessionId := f.sessionId.getD "",
    pairIndex := f.pairIndex.getD 0,
    description := "[" ++ f.operationType.getD "unknown" ++ "] " ++ f.filePath.getD "",
    details := f.error.getD "",
    debugContext := f.debugContext }

/-- Lines 1177-1184: the event dictionary appended for one pair error. -/
def pairErrorEvent (p : PairErrorRow) : ErrorEvent :=
  { type := .error,
    timestamp := p.timestamp.getD "",
    sessionId := p.sessionId.getD "",
    pairIndex := p.pairIndex.getD 0,
    description := p.errorMessage.getD "Unknown error",
    details := "Pair #" ++ pairIndexText p.pairIndex }

/-- Lines 1186-1199: the event dictionary appended for one CLI failure;
the command is truncated to 50 characters and the description carries
the auto-execution marker. -/
def cliEvent (c : CliRow) : ErrorEvent :=
  let cmd : String := ⟨(c.command.getD "").data.take 50⟩
  let autoLabel : String := if c.wasAutoExecuted.getD false then "🤖" else "👤"
  { type := .cli,
    timestamp := c.timestamp.getD "",
    sessionId := c.sessionId.getD "",
    pairIndex := c.pairIndex.getD 0,
    description := "[CLI " ++ autoLabel ++ "] " ++ cmd,
    details := (match c.error with | some v => v | none => c.stderr.getD ""),
    command := some (c.command.getD ""),
    exitCode := c.exitCode,
    wasAutoExecuted := some (c.wasAutoExecuted.getD false),
    wasWhitelisted := some (c.wasWhitelisted.getD false) }

/-- Python set.add: append the element unless present. -/
def addIfNew (l : List String) (x : String) : List String :=
  if x ∈ l then l else l ++ [x]

/-- Python truthiness of an optional string: present and non-empty. -/
def truthyStr (o : Option String) : Bool :=
  match o with
  | none => false
  | some s => !(s = "")

/-- Line 1215 guard: extensionInfo is truthy and its currentExtension
(defaulting to 1) exceeds 1. -/
def extensionCond (s : SessionStat) : Bool :=
  match s.extensionInfo with
  | none => false
  | some info => 1 < info.currentExtension.getD 1

/-- Line 1218 guard: a truthy parent or forward handoff reference. -/
def handoffCond (s : SessionStat) : Bool :=
  truthyStr s.parentSessionId || truthyStr s.handoffToSessionId

/-- The three session categories of lines 1210-1223. -/
inductive SessionCategory where
  | single
  | extended
  | handoff
deriving DecidableEq, Repr

/-- The category the if/elif/else chain of lines 1215-1223 assigns. -/
def classify (s : SessionStat) : SessionCategory :=
  if extensionCond s then .extended
  else if handoffCond s then .handoff
  else .single

/-- Python dict assignment m[k] = v on an association list: overwrite in
place or append. -/
def mapSet : List (String × SessionCategory) → String → SessionCategory → List (String × SessionCategory)
  | [], k, v => [(k, v)]
  | (q, w) :: rest, k, v => if q = k then (k, v) :: rest else (q, w) :: mapSet rest k v

/-- One iteration of the session-type loop (lines 1213-1223): bump the
matching counter (single, extended, handoff) and record the category in
session_type_map under the row's id. -/
def sessionTypesStep (acc : (Nat × Nat × Nat) × List (String × SessionCategory))
    (s : SessionStat) : (Nat × Nat × Nat) × List (String × SessionCategory) :=
  let sid := s.id.getD ""
  if extensionCond s then
    ((acc.1.1, acc.1.2.1 + 1, acc.1.2.2), mapSet acc.2 sid .extended)
  else if handoffCond s then
    ((acc.1.1, acc.1.2.1, acc.1.2.2 + 1), mapSet acc.2 sid .handoff)
  else
    ((acc.1.1 + 1, acc.1.2.1, acc.1.2.2), mapSet acc.2 sid .single)

/-- The JSON object returned by /api/errors (lines 1225-1231), with the
stats and sessionTypes sub-objects flattened into fields. -/
structure ErrorsResponse where
  statsBugs : Nat
  statsFailures : Nat
  statsErrors : Nat
  statsCli : Nat
  statsUniqueSessions : Nat
  errors : List ErrorEvent
  timeSeries : List TimeBucketOut
  singleCount : Nat
  extendedCount : Nat
  handoffCount : Nat
  sessionTypeMap : List (String × SessionCategory)
deriving DecidableEq, Repr

/-- Lines 1146-1231 of get_errors after its five query_couchbase calls:
a pure function of the query result rows. The four flattening loops run
in order; session_ids collects each row's session id; the flat list is
sorted by timestamp descending (Python sort with reverse=True); the time
series is built from the sorted list; the session-type loop produces the
counts and the id-to-category map. -/
def get_errors (time_range : String) (bugs : List BugRow) (failures : List FailureRow)
    (pair_errors : List PairErrorRow) (cli_failures : List CliRow)
    (session_stats : List SessionStat) : ErrorsResponse :=
  let all_errors : List ErrorEvent :=
    bugs.map bugEvent ++ failures.map failureEvent
      ++ pair_errors.map pairErrorEvent ++ cli_failures.map cliEvent
  let session_ids : List String :=
    (bugs.map (fun b => b.sessionId.getD "") ++ failures.map (fun f => f.sessionId.getD "")
      ++ pair_errors.map (fun p => p.sessionId.getD "")
      ++ cli_failures.map (fun c => c.sessionId.getD "")).foldl addIfNew []
  let all_sorted : List ErrorEvent :=
    List.insertionSort (fun a b => keyLeB b.timestamp a.timestamp = true) all_errors
  let time_series := build_time_series all_sorted time_range session_ids.length session_stats
  let st := session_stats.foldl sessionTypesStep ((0, 0, 0), [])
  { statsBugs := bugs.length,
    statsFailures := failures.length,
    statsErrors := pair_errors.length,
    statsCli := cli_failures.length,
    statsUniqueSessions := session_ids.length,
    errors := all_sorted,
    timeSeries := time_series,
    singleCount := st.1.1,
    extendedCount := st.1.2.1,
    handoffCount := st.1.2.2,
    sessionTypeMap := st.2 }

/-- Concrete fixture: the spec's first example event (bug, 10:15, A). -/
def ev1015 : ErrorEvent := { type := .bug, timestamp := "2024-01-01T10:15:00Z", sessionId := "A" }

/-- Concrete fixture: the spec's second example event (bug, 10:45, B). -/
def ev1045 : ErrorEvent := { type := .bug, timestamp := "2024-01-01T10:45:00Z", sessionId := "B" }

/-- Concrete fixture: a cli-typed event with a parsable timestamp. -/
def cliEv : ErrorEvent := { type := .cli, timestamp := "2024-01-01T10:15:00Z", sessionId := "A" }

/-- Concrete fixture: the spec's session with both an extension count of
2 and a parent reference. -/
def extendedHandoffStat : SessionStat :=
  { id := some "S", extensionInfo := some { currentExtension := some 2 },
    parentSessionId := some "X" }

/-- Concrete fixture: a bug row whose timestamp does not parse. -/
def badTsBugRow : BugRow :=
  { sessionId := some "S1", bugType := some "logic", description := some "d",
    timestamp := some "not-a-date", pairIndex := some 3 }

/-- Concrete fixture: an event whose timestamp does not parse. -/
def badTsEvent : ErrorEvent := { type := .bug, timestamp := "not-a-date", sessionId := "S1" }

/-- Concrete fixture: the summary row the spec expects for the 10:15
bucket of its two-event example (avgPerSession 1.0 is 100 hundredths). -/
def bucket1015 : TimeBucketOut :=
  { period := "10:15", bugs := 1, failures := 0, errors := 0,
    avgPerSessionHundredths := 100, tokensIn := 0, tokensOut := 0,
    avgSessionSizeKBTenths := 0 }

/-- Concrete fixture: the summary row the spec expects for the 10:45
bucket of its two-event example. -/
def bucket1045 : TimeBucketOut :=
  { period := "10:45", bugs := 1, failures := 0, errors := 0,
    avgPerSessionHundredths := 100, tokensIn := 0, tokensOut := 0,
    avgSessionSizeKBTenths := 0 }

/-- Concrete fixture: the all-zero summary row that one cli event
produces for its bucket. -/
def cliBucketOut : TimeBucketOut :=
  { period := "10:15", bugs := 0, failures := 0, errors := 0,
    avgPerSessionHundredths := 0, tokensIn := 0, tokensOut := 0,
    avgSessionSizeKBTenths := 0 }

theorem charListLtB_irrefl : ∀ l : List Char, charListLtB l l = false := by
  intro l
  induction l with
  | nil => rfl
  | cons a as ih => simp [charListLtB, lt_irrefl, ih]

theorem charListLtB_asymm : ∀ a b : List Char, charListLtB a b = true → charListLtB b a = false := by
  intro a
  induction a with
  | nil =>
    intro b h
    cases b with
    | nil => simpa [charListLtB] using h
    | cons c cs => simp [charListLtB]
  | cons x xs ih =>
    intro b h
    cases b with
    | nil => simpa [charListLtB] using h
    | cons y ys =>
      by_cases hxy : x < y
      · simp [charListLtB, hxy, asymm hxy]
      · by_cases hyx : y < x
        · simp [charListLtB, hxy, hyx] at h
        · simp [charListLtB, hxy, hyx] at h ⊢
          exact ih ys h

theorem charListLtB_trans : ∀ a b c : List Char,
    charListLtB a b = true → charListLtB b c = true → charListLtB a c = true := by
  intro a
  induction a with
  | nil =>
    intro b c h1 h2
    cases b with
    | nil => simpa [charListLtB] using h1
    | cons y ys =>
      cases c with
      | nil => simpa [charListLtB] using h2
      | cons z zs => simp [charListLtB]
  | cons x xs ih =>
    intro b c h1 h2
    cases b with
    | nil => simpa [charListLtB] using h1
    | cons y ys =>
      cases c with
      | nil => simpa [charListLtB] using h2
      | cons z zs =>
        by_cases hxy : x < y
        · by_cases hyz : y < z
          · simp [charListLtB, lt_trans hxy hyz]
          · by_cases hzy : z < y
            · simp [charListLtB, hyz, hzy] at h2
            · have hyzeq : y = z := le_antisymm (not_lt.mp hzy) (not_lt.mp hyz)
              subst hyzeq
              simp [charListLtB, hxy]
        · by_cases hyx : y < x
          · simp [charListLtB, hxy, hyx] at h1
          · have hxyeq : x = y := le_antisymm (not_lt.mp hyx) (not_lt.mp hxy)
            subst hxyeq
            simp [charListLtB, lt_irrefl] at h1
            by_cases hyz : x < z
            · simp [charListLtB, hyz]
            · by_cases hzy : z < x
              · simp [charListLtB, hyz, hzy] at h2
              · simp [charListLtB, hyz, hzy] at h2 ⊢
                exact ih ys zs h1 h2

theorem charListLtB_eq_of_not_lt : ∀ a b : List Char,
    charListLtB a b = false → charListLtB b a = false → a = b := by
  intro a
  induction a with
  | nil =>
    intro b h1 _
    cases b with
    | nil => rfl
    | cons y ys => simp [charListLtB] at h1
  | cons x xs ih =>
    intro b h1 h2
    cases b with
    | nil => simp [charListLtB] at h2
    | cons y ys =>
      by_cases hxy : x < y
      · simp [charListLtB, hxy] at h1
      · by_cases hyx : y < x
        · simp [charListLtB, hyx, asymm hyx] at h2
        · have hxyeq : x = y := le_antisymm (not_lt.mp hyx) (not_lt.mp hxy)
          subst hxyeq
          simp [charListLtB, lt_irrefl] at h1 h2
          exact congrArg (x :: ·) (ih ys h1 h2)

theorem charListLtB_append : ∀ xs ys : List Char, xs.length = ys.length → ∀ as bs : List Char,
    charListLtB (xs ++ as) (ys ++ bs)
      = (charListLtB xs ys || (decide (xs = ys) && charListLtB as bs)) := by
  intro xs
  induction xs with
  | nil =>
    intro ys hlen as bs
    cases ys with
    | nil => simp [charListLtB]
    | cons y ys => simp at hlen
  | cons x xs ih =>
    intro ys hlen as bs
    cases ys with
    | nil => simp at hlen
    | cons y ys =>
      simp only [List.length_cons, Nat.succ.injEq] at hlen
      by_cases hxy : x < y
      · simp [charListLtB, hxy, ne_of_lt hxy]
      · by_cases hyx : y < x
        · have hne : x ≠ y := fun hq => absurd hq.symm (ne_of_lt hyx)
          simp [charListLtB, hxy, hyx, hne]
        · have hxyeq : x = y := le_antisymm (not_lt.mp hyx) (not_lt.mp hxy)
          subst hxyeq
          simp [charListLtB, lt_irrefl, ih ys hlen as bs]

theorem keyLeB_total (a b : String) : keyLeB a b = true ∨ keyLeB b a = true := by
  cases h : charListLtB b.data a.data with
  | false => left; simp [keyLeB, h]
  | true => right; simp [keyLeB, charListLtB_asymm _ _ h]

theorem keyLeB_trans (a b c : String) (h1 : keyLeB a b = true) (h2 : keyLeB b c = true) :
    keyLeB a c = true := by
  simp only [keyLeB, Bool.not_eq_true'] at h1 h2 ⊢
  cases hab : charListLtB a.data b.data with
  | true =>
    cases hca : charListLtB c.data a.data with
    | true =>
      have := charListLtB_trans _ _ _ hca hab
      rw [this] at h2
      exact absurd h2 (by simp)
    | false => rfl
  | false =>
    have hq : a.data = b.data := charListLtB_eq_of_not_lt _ _ hab h1
    rw [hq]
    exact h2

theorem strLtB_of_keyLeB_ne (a b : String) (h : keyLeB a b = true) (hne : a ≠ b) :
    strLtB a b = true := by
  simp only [keyLeB, Bool.not_eq_true'] at h
  cases hab : charListLtB a.data b.data with
  | true => exact hab
  | false =>
    have hq : a.data = b.data := charListLtB_eq_of_not_lt _ _ hab h
    exact absurd (String.ext hq) hne

theorem countTy_incType (t u : ErrType) (d : BucketData) :
    countTy t (incType u d) = countTy t d + (if t = u then 1 else 0) := by
  cases t <;> cases u <;> simp [countTy, incType]

theorem countTy_addSession (t : ErrType) (sid : String) (d : BucketData) :
    countTy t (addSession sid d) = countTy t d := by
  unfold addSession
  split
  · rfl
  · cases t <;> rfl

theorem countTy_tokensPatch (t : ErrType) (d : BucketData) (a b c : Int) :
    countTy t { d with tokensIn := a, tokensOut := b, totalSizeBytes := c } = countTy t d := by
  cases t <;> rfl

theorem countTy_init (t : ErrType) : countTy t ({} : BucketData) = 0 := by
  cases t <;> rfl

theorem update_data (b : Buckets) (k : String) (f : BucketData → BucketData) (q : String) :
    (b.update k f).data q = if q = k then f (b.data k) else b.data q := rfl

theorem step_event_count (fmt : String) (b : Buckets) (e : ErrorEvent) (k : String) (t : ErrType) :
    countTy t ((step_event fmt b e).data k)
      = countTy t (b.data k) + (if bucketOf fmt e = some k ∧ e.type = t then 1 else 0) := by
  cases hb : bucketOf fmt e with
  | none => simp [step_event, hb]
  | some q =>
    simp only [step_event, hb, update_data]
    by_cases hkq : k = q
    · subst hkq
      rw [if_pos rfl, countTy_addSession, countTy_incType]
      by_cases het : e.type = t
      · rw [if_pos (And.intro rfl het), if_pos het.symm]
      · rw [if_neg (fun hq : t = e.type => het hq.symm),
            if_neg (fun hq : some k = some k ∧ e.type = t => het hq.2)]
    · rw [if_neg hkq, if_neg (fun hq => hkq (Option.some.inj hq.1).symm), Nat.add_zero]

theorem foldl_event_count (fmt : String) (k : String) (t : ErrType) :
    ∀ (l : List ErrorEvent) (b : Buckets),
    countTy t ((l.foldl (step_event fmt) b).data k)
      = countTy t (b.data k) + l.countP (fun e => decide (bucketOf fmt e = some k ∧ e.type = t)) := by
  intro l
  induction l with
  | nil => intro b; simp
  | cons e l ih =>
    intro b
    simp only [List.foldl_cons, ih (step_event fmt b e), step_event_count,
      List.countP_cons, decide_eq_true_eq]
    split <;> omega

theorem step_stat_count (fmt : String) (b : Buckets) (s : SessionStat) (k : String) (t : ErrType) :
    countTy t ((step_stat fmt b s).data k) = countTy t (b.data k) := by
  unfold step_stat
  split
  · rfl
  · cases fromisoformat (pyReplaceZ s.updatedAt) with
    | none => rfl
    | some dt =>
      simp only [update_data]
      split
      · next hq => rw [countTy_addSession, countTy_tokensPatch, hq]
      · rfl

theorem foldl_stat_count (fmt : String) (k : String) (t : ErrType) :
    ∀ (l : List SessionStat) (b : Buckets),
    countTy t ((l.foldl (step_stat fmt) b).data k) = countTy t (b.data k) := by
  intro l
  induction l with
  | nil => intro b; rfl
  | cons s l ih => intro b; rw [List.foldl_cons, ih, step_stat_count]

theorem count_time_buckets (fmt : String) (errors : List ErrorEvent)
    (stats : List SessionStat) (k : String) (t : ErrType) :
    countTy t ((time_buckets fmt errors stats).data k)
      = errors.countP (fun e => decide (bucketOf fmt e = some k ∧ e.type = t)) := by
  unfold time_buckets
  rw [foldl_stat_count, foldl_event_count]
  simp [Buckets.init, countTy_init]

theorem update_keys_nodup (b : Buckets) (k : String) (f : BucketData → BucketData)
    (h : b.keys.Nodup) : (b.update k f).keys.Nodup := by
  unfold Buckets.update
  split
  · exact h
  · simp_all [List.nodup_append]

theorem foldl_event_keys_nodup (fmt : String) :
    ∀ (l : List ErrorEvent) (b : Buckets), b.keys.Nodup →
    ((l.foldl (step_event fmt) b).keys.Nodup) := by
  intro l
  induction l with
  | nil => intro b h; exact h
  | cons e l ih =>
    intro b h
    rw [List.foldl_cons]
    apply ih
    cases hb : bucketOf fmt e with
    | none => simpa [step_event, hb] using h
    | some q =>
      simp only [step_event, hb]
      exact update_keys_nodup b q _ h

theorem foldl_stat_keys_nodup (fmt : String) :
    ∀ (l : List SessionStat) (b : Buckets), b.keys.Nodup →
    ((l.foldl (step_stat fmt) b).keys.Nodup) := by
  intro l
  induction l with
  | nil => intro b h; exact h
  | cons s l ih =>
    intro b h
    rw [List.foldl_cons]
    apply ih
    unfold step_stat
    split
    · exact h
    · cases fromisoformat (pyReplaceZ s.updatedAt) with
      | none => exact h
      | some dt => exact update_keys_nodup b _ _ h

theorem time_buckets_keys_nodup (fmt : String) (errors : List ErrorEvent)
    (stats : List SessionStat) : (time_buckets fmt errors stats).keys.Nodup := by
  exact foldl_stat_keys_nodup fmt stats _ (foldl_event_keys_nodup fmt errors Buckets.init List.nodup_nil)

theorem mkSummary_period (k : String) (d : BucketData) : (mkSummary k d).period = k := rfl

theorem mem_build (errors : List ErrorEvent) (r : String) (n : Nat) (stats : List SessionStat)
    (x : TimeBucketOut) (hx : x ∈ build_time_series errors r n stats) :
    x = mkSummary x.period ((time_buckets (bucket_format r) errors stats).data x.period) := by
  unfold build_time_series at hx
  obtain ⟨k, hk, hxk⟩ := List.mem_map.mp hx
  rw [← hxk, mkSummary_period]

theorem ite_len_eq_max (n : Nat) : (if n = 0 then 1 else n) = max 1 n := by
  split <;> omega

theorem mkSummary_avg (k : String) (d : BucketData) :
    (mkSummary k d).avgPerSessionHundredths
      = roundHalfEven (100 * ((d.bugs + d.failures + d.errors : Nat) : Int)) ((max 1 d.sessions.length : Nat) : Int)
    ∧ (mkSummary k d).avgSessionSizeKBTenths
      = roundHalfEven (10 * d.totalSizeBytes) (((max 1 d.sessions.length : Nat) : Int) * 1024) := by
  constructor
  · simp only [mkSummary]
    rw [ite_len_eq_max]
  · simp only [mkSummary]
    rw [ite_len_eq_max]

theorem build_periods (errors : List ErrorEvent) (r : String) (n : Nat) (stats : List SessionStat) :
    (build_time_series errors r n stats).map (fun x => x.period)
      = List.insertionSort (fun a b => keyLeB a b = true)
          (time_buckets (bucket_format r) errors stats).keys := by
  have hcomp : ((fun x : TimeBucketOut => x.period)
      ∘ (fun k => mkSummary k ((time_buckets (bucket_format r) errors stats).data k))) = id :=
    funext fun k => rfl
  simp only [build_time_series, List.map_map, hcomp, List.map_id]

set_option maxRecDepth 100000 in
set_option maxHeartbeats 2000000 in
theorem twoDigit_data_lt : ∀ a < 100, ∀ b < 100,
    (charListLtB (twoDigit a).data (twoDigit b).data = true ↔ a < b) := by decide

set_option maxRecDepth 100000 in
set_option maxHeartbeats 2000000 in
theorem twoDigit_data_eq : ∀ a < 100, ∀ b < 100,
    ((twoDigit a).data = (twoDigit b).data ↔ a = b) := by decide

theorem charListLtB_cons_same (c : Char) (u v : List Char) :
    charListLtB (c :: u) (c :: v) = charListLtB u v := by
  simp [charListLtB, lt_irrefl]

theorem charListLtB_twoDigit_sep (sep : Char) (a b c d : Nat)
    (ha : a < 100) (hb : b < 100) (hc : c < 100) (hd : d < 100) :
    (charListLtB ((twoDigit a).data ++ sep :: (twoDigit b).data)
        ((twoDigit c).data ++ sep :: (twoDigit d).data) = true)
      ↔ (a < c ∨ (a = c ∧ b < d)) := by
  rw [charListLtB_append _ _ (by rfl), charListLtB_cons_same]
  simp only [Bool.or_eq_true, Bool.and_eq_true, decide_eq_true_eq,
    twoDigit_data_lt a ha c hc, twoDigit_data_eq a ha c hc, twoDigit_data_lt b hb d hd]

theorem charListLtB_twoDigit_fixed (tail : List Char) (a c : Nat)
    (ha : a < 100) (hc : c < 100) :
    (charListLtB ((twoDigit a).data ++ tail) ((twoDigit c).data ++ tail) = true) ↔ a < c := by
  rw [charListLtB_append _ _ (by rfl)]
  simp only [Bool.or_eq_true, Bool.and_eq_true, decide_eq_true_eq,
    twoDigit_data_lt a ha c hc, twoDigit_data_eq a ha c hc, charListLtB_irrefl,
    Bool.false_eq_true, and_false, or_false]

theorem daysInMonth_le_31 (y m : Nat) : daysInMonth y m ≤ 31 := by
  unfold daysInMonth
  split_ifs <;> omega

theorem fromisoformat_bounds (s : String) (dt : PyDateTime) (h : fromisoformat s = some dt) :
    dt.month ≤ 12 ∧ dt.day ≤ 31 ∧ dt.hour ≤ 23 ∧ dt.minute ≤ 59 := by
  unfold fromisoformat at h
  cases hp : parseFields s.data with
  | none => rw [hp] at h; exact absurd h (by simp)
  | some tup =>
    obtain ⟨y, mo, d, hh, mi, se⟩ := tup
    rw [hp] at h
    have hmk : mkDT y mo d hh mi se = some dt := h
    unfold mkDT at hmk
    split at hmk
    · next hcond =>
        injection hmk with hdt
        subst hdt
        obtain ⟨q1, q2, q3, q4, q5, q6, q7, q8, q9⟩ := hcond
        exact ⟨q4, le_trans q6 (daysInMonth_le_31 y mo), q7, q8⟩
    · exact absurd hmk (by simp)

theorem bucket_format_hour : bucket_format "hour" = "%H:%M" := rfl

theorem bucket_format_day : bucket_format "day" = "%H:00" := rfl

theorem bucket_format_other (r : String) (h1 : r ≠ "hour") (h2 : r ≠ "day") :
    bucket_format r = "%m/%d" := by
  unfold bucket_format
  rw [if_neg h1, if_neg h2]
  split_ifs <;> rfl

theorem strftime_hm (dt : PyDateTime) :
    strftime "%H:%M" dt = twoDigit dt.hour ++ ":" ++ twoDigit dt.minute := rfl

theorem strftime_h00 (dt : PyDateTime) :
    strftime "%H:00" dt = twoDigit dt.hour ++ ":00" := rfl

theorem strftime_md (dt : PyDateTime) :
    strftime "%m/%d" dt = twoDigit dt.month ++ "/" ++ twoDigit dt.day := rfl

theorem data_sep_pair (x y : String) (sep : Char) (s : String) (hs : s.data = [sep]) :
    (x ++ s ++ y).data = x.data ++ sep :: y.data := by
  rw [String.data_append, String.data_append, hs, List.append_assoc]
  rfl

theorem strftime_hm_lt_iff (dt1 dt2 : PyDateTime)
    (b1 : dt1.hour < 100) (b2 : dt1.minute < 100) (b3 : dt2.hour < 100) (b4 : dt2.minute < 100) :
    (strLtB (strftime "%H:%M" dt1) (strftime "%H:%M" dt2) = true)
      ↔ (dt1.hour < dt2.hour ∨ (dt1.hour = dt2.hour ∧ dt1.minute < dt2.minute)) := by
  rw [strftime_hm, strftime_hm]
  unfold strLtB
  rw [data_sep_pair _ _ ':' ":" rfl, data_sep_pair _ _ ':' ":" rfl]
  exact charListLtB_twoDigit_sep ':' dt1.hour dt1.minute dt2.hour dt2.minute b1 b2 b3 b4

theorem strftime_md_lt_iff (dt1 dt2 : PyDateTime)
    (b1 : dt1.month < 100) (b2 : dt1.day < 100) (b3 : dt2.month < 100) (b4 : dt2.day < 100) :
    (strLtB (strftime "%m/%d" dt1) (strftime "%m/%d" dt2) = true)
      ↔ (dt1.month < dt2.month ∨ (dt1.month = dt2.month ∧ dt1.day < dt2.day)) := by
  rw [strftime_md, strftime_md]
  unfold strLtB
  rw [data_sep_pair _ _ '/' "/" rfl, data_sep_pair _ _ '/' "/" rfl]
  exact charListLtB_twoDigit_sep '/' dt1.month dt1.day dt2.month dt2.day b1 b2 b3 b4

theorem strftime_h00_lt_iff (dt1 dt2 : PyDateTime)
    (b1 : dt1.hour < 100) (b3 : dt2.hour < 100) :
    (strLtB (strftime "%H:00" dt1) (strftime "%H:00" dt2) = true) ↔ dt1.hour < dt2.hour := by
  rw [strftime_h00, strftime_h00]
  unfold strLtB
  rw [String.data_append, String.data_append]
  exact charListLtB_twoDigit_fixed (":00".data) dt1.hour dt2.hour b1 b3

theorem build_sorted (errors : List ErrorEvent) (r : String) (n : Nat)
    (stats : List SessionStat) :
    List.Sorted labelLt ((build_time_series errors r n stats).map (fun x => x.period)) := by
  rw [build_periods]
  haveI : IsTotal String (fun a b => keyLeB a b = true) := ⟨keyLeB_total⟩
  haveI : IsTrans String (fun a b => keyLeB a b = true) := ⟨keyLeB_trans⟩
  have hsorted := List.sorted_insertionSort (fun a b => keyLeB a b = true)
    (time_buckets (bucket_format r) errors stats).keys
  have hnodup : (List.insertionSort (fun a b => keyLeB a b = true)
      (time_buckets (bucket_format r) errors stats).keys).Nodup :=
    (List.perm_insertionSort _ _).nodup_iff.mpr (time_buckets_keys_nodup _ _ _)
  have hpair : List.Pairwise (fun a b : String => a ≠ b)
      (List.insertionSort (fun a b => keyLeB a b = true)
        (time_buckets (bucket_format r) errors stats).keys) := hnodup
  exact (List.Pairwise.and hsorted hpair).imp
    (fun hab => strLtB_of_keyLeB_ne _ _ hab.1 hab.2)

theorem sessions_incType (t : ErrType) (d : BucketData) :
    (incType t d).sessions = d.sessions := by
  cases t <;> rfl

theorem mem_sessions_addSession (sid : String) (d : BucketData) :
    sid ∈ (addSession sid d).sessions := by
  unfold addSession
  split
  · assumption
  · simp

theorem mem_sessions_addSession_of_mem (s sid : String) (d : BucketData)
    (h : sid ∈ d.sessions) : sid ∈ (addSession s d).sessions := by
  unfold addSession
  split
  · exact h
  · simp [h]

theorem step_event_sessions_mono (fmt : String) (b : Buckets) (e : ErrorEvent)
    (k sid : String) (h : sid ∈ (b.data k).sessions) :
    sid ∈ ((step_event fmt b e).data k).sessions := by
  cases hb : bucketOf fmt e with
  | none => simpa [step_event, hb] using h
  | some q =>
    simp only [step_event, hb, update_data]
    split
    · next hq =>
        rw [hq] at h
        exact mem_sessions_addSession_of_mem _ _ _ (by rw [sessions_incType]; exact h)
    · exact h

theorem step_stat_sessions_mono (fmt : String) (b : Buckets) (s : SessionStat)
    (k sid : String) (h : sid ∈ (b.data k).sessions) :
    sid ∈ ((step_stat fmt b s).data k).sessions := by
  unfold step_stat
  split
  · exact h
  · cases fromisoformat (pyReplaceZ s.updatedAt) with
    | none => exact h
    | some dt =>
      simp only [update_data]
      split
      · next hq =>
          rw [hq] at h
          exact mem_sessions_addSession_of_mem _ _ _ h
      · exact h

theorem foldl_event_sessions_mono (fmt : String) (k sid : String) :
    ∀ (l : List ErrorEvent) (b : Buckets), sid ∈ (b.data k).sessions →
    sid ∈ ((l.foldl (step_event fmt) b).data k).sessions := by
  intro l
  induction l with
  | nil => intro b h; exact h
  | cons e l ih =>
    intro b h
    rw [List.foldl_cons]
    exact ih _ (step_event_sessions_mono fmt b e k sid h)

theorem foldl_stat_sessions_mono (fmt : String) (k sid : String) :
    ∀ (l : List SessionStat) (b : Buckets), sid ∈ (b.data k).sessions →
    sid ∈ ((l.foldl (step_stat fmt) b).data k).sessions := by
  intro l
  induction l with
  | nil => intro b h; exact h
  | cons s l ih =>
    intro b h
    rw [List.foldl_cons]
    exact ih _ (step_stat_sessions_mono fmt b s k sid h)

theorem step_event_sessions_self (fmt : String) (b : Buckets) (e : ErrorEvent) (k : String)
    (h : bucketOf fmt e = some k) :
    e.sessionId ∈ ((step_event fmt b e).data k).sessions := by
  simp only [step_event, h, update_data, if_pos rfl]
  exact mem_sessions_addSession _ _

theorem time_buckets_sessions_mem (fmt : String) (errors : List ErrorEvent)
    (stats : List SessionStat) (e : ErrorEvent) (k : String)
    (he : e ∈ errors) (hp : bucketOf fmt e = some k) :
    e.sessionId ∈ ((time_buckets fmt errors stats).data k).sessions := by
  obtain ⟨l1, l2, hsplit⟩ := List.append_of_mem he
  subst hsplit
  unfold time_buckets
  rw [List.foldl_append, List.foldl_cons]
  exact foldl_stat_sessions_mono fmt k e.sessionId stats _
    (foldl_event_sessions_mono fmt k e.sessionId l2 _
      (step_event_sessions_self fmt _ e k hp))

theorem sessionTypes_fold_sum : ∀ (l : List SessionStat)
    (acc : (Nat × Nat × Nat) × List (String × SessionCategory)),
    (l.foldl sessionTypesStep acc).1.1 + (l.foldl sessionTypesStep acc).1.2.1
        + (l.foldl sessionTypesStep acc).1.2.2
      = acc.1.1 + acc.1.2.1 + acc.1.2.2 + l.length := by
  intro l
  induction l with
  | nil => intro acc; simp
  | cons s l ih =>
    intro acc
    have hstep : (sessionTypesStep acc s).1.1 + (sessionTypesStep acc s).1.2.1
        + (sessionTypesStep acc s).1.2.2 = acc.1.1 + acc.1.2.1 + acc.1.2.2 + 1 := by
      simp only [sessionTypesStep]
      split_ifs <;> simp <;> omega
    rw [List.foldl_cons, ih, hstep, List.length_cons]
    omega

/-- Claim C1: every event whose timestamp parses is counted in exactly
one bucket of the time_buckets dictionary built by build_time_series,
namely the bucket labelled with its formatted timestamp: removing one
occurrence of the event lowers that bucket's counter for its type by
exactly one and leaves every other bucket's counters unchanged. -/
theorem claim_c1 (errors : List ErrorEvent) (stats : List SessionStat) (r : String)
    (e : ErrorEvent) (lab : String) (he : e ∈ errors)
    (hp : bucketOf (bucket_format r) e = some lab) :
    countTy e.type ((time_buckets (bucket_format r) errors stats).data lab)
      = countTy e.type ((time_buckets (bucket_format r) (errors.erase e) stats).data lab) + 1
    ∧ (∀ k, k ≠ lab → ∀ t, countTy t ((time_buckets (bucket_format r) errors stats).data k)
        = countTy t ((time_buckets (bucket_format r) (errors.erase e) stats).data k))
    ∧ bucket_format "hour" = "%H:%M" ∧ bucket_format "day" = "%H:00"
    ∧ (∀ q : String, q ≠ "hour" → q ≠ "day" → bucket_format q = "%m/%d") := by
  have hperm : errors.Perm (e :: errors.erase e) := List.perm_cons_erase he
  refine ⟨?_, ?_, rfl, rfl, bucket_format_other⟩
  · rw [count_time_buckets, count_time_buckets, hperm.countP_eq, List.countP_cons]
    simp [hp]
  · intro k hk t
    rw [count_time_buckets, count_time_buckets, hperm.countP_eq, List.countP_cons]
    simp [hp, Ne.symm hk]

/-- Witness for C1 at a concrete input: the 10:15 bug event of the
spec's example is counted once in the 10:15 bucket and nowhere else. -/
theorem claim_c1_witness :
    countTy ev1015.type ((time_buckets (bucket_format "hour") [ev1015, ev1045] []).data "10:15")
      = countTy ev1015.type
          ((time_buckets (bucket_format "hour") ([ev1015, ev1045].erase ev1015) []).data "10:15") + 1
    ∧ (∀ k, k ≠ "10:15" → ∀ t,
        countTy t ((time_buckets (bucket_format "hour") [ev1015, ev1045] []).data k)
          = countTy t ((time_buckets (bucket_format "hour") ([ev1015, ev1045].erase ev1015) []).data k))
    ∧ bucket_format "hour" = "%H:%M" ∧ bucket_format "day" = "%H:00"
    ∧ (∀ q : String, q ≠ "hour" → q ≠ "day" → bucket_format q = "%m/%d") :=
  claim_c1 [ev1015, ev1045] [] "hour" ev1015 "10:15" (by decide) (by decide)

/-- Claim C2: the session classifier of get_errors is a priority chain:
extended when extensionInfo is truthy with currentExtension above 1,
else handoff when a parent or forward handoff reference is truthy, else
single; the loop records exactly this category in session_type_map, and
the spec's example with both markers classifies as extended. -/
theorem claim_c2 (s : SessionStat) :
    (extensionCond s = true → classify s = SessionCategory.extended)
    ∧ (extensionCond s = false → handoffCond s = true → classify s = SessionCategory.handoff)
    ∧ (extensionCond s = false → handoffCond s = false → classify s = SessionCategory.single)
    ∧ (∀ acc, (sessionTypesStep acc s).2 = mapSet acc.2 (s.id.getD "") (classify s))
    ∧ classify extendedHandoffStat = SessionCategory.extended := by
  refine ⟨?_, ?_, ?_, ?_, by decide⟩
  · intro h; simp [classify, h]
  · intro h1 h2; simp [classify, h1, h2]
  · intro h1 h2; simp [classify, h1, h2]
  · intro acc
    by_cases h1 : extensionCond s = true
    · simp [sessionTypesStep, classify, h1]
    · by_cases h2 : handoffCond s = true <;>
        simp [sessionTypesStep, classify, h1, h2]

/-- Witness for C2: the concrete session with currentExtension 2 and a
parent reference is classified extended. -/
theorem claim_c2_witness : classify extendedHandoffStat = SessionCategory.extended :=
  (claim_c2 extendedHandoffStat).1 (by decide)

/-- Claim C3: session classification is total and mutually exclusive:
the single, extended and handoff counts emitted by get_errors sum to the
number of input SessionStats. -/
theorem claim_c3 (time_range : String) (bugs : List BugRow) (failures : List FailureRow)
    (pair_errors : List PairErrorRow) (cli_failures : List CliRow)
    (session_stats : List SessionStat) :
    (get_errors time_range bugs failures pair_errors cli_failures session_stats).singleCount
      + (get_errors time_range bugs failures pair_errors cli_failures session_stats).extendedCount
      + (get_errors time_range bugs failures pair_errors cli_failures session_stats).handoffCount
      = session_stats.length := by
  simp only [get_errors]
  simpa using sessionTypes_fold_sum session_stats ((0, 0, 0), [])

/-- Claim C4: no emitted bucket divides by zero: every row of
build_time_series comes from a bucket whose averages are computed with
session count max(1, distinct sessions); with zero distinct sessions the
divisor is exactly 1. round(x, 2) and round(x, 1) are represented by
their exact values in hundredths and tenths. -/
theorem claim_c4 (errors : List ErrorEvent) (r : String) (n : Nat) (stats : List SessionStat)
    (x : TimeBucketOut) (hx : x ∈ build_time_series errors r n stats) :
    ∃ d : BucketData,
      x = mkSummary x.period d
      ∧ x.avgPerSessionHundredths
          = roundHalfEven (100 * ((d.bugs + d.failures + d.errors : Nat) : Int))
              ((max 1 d.sessions.length : Nat) : Int)
      ∧ x.avgSessionSizeKBTenths
          = roundHalfEven (10 * d.totalSizeBytes) (((max 1 d.sessions.length : Nat) : Int) * 1024)
      ∧ (d.sessions.length = 0 →
          x.avgPerSessionHundredths
            = roundHalfEven (100 * ((d.bugs + d.failures + d.errors : Nat) : Int)) 1) := by
  unfold build_time_series at hx
  obtain ⟨k, hk, hxk⟩ := List.mem_map.mp hx
  subst hxk
  refine ⟨(time_buckets (bucket_format r) errors stats).data k, rfl,
    (mkSummary_avg k _).1, (mkSummary_avg k _).2, ?_⟩
  intro hzero
  have hq := (mkSummary_avg k ((time_buckets (bucket_format r) errors stats).data k)).1
  rw [hzero] at hq
  simpa using hq

/-- Witness for C4 at the concrete 10:15 bucket of the spec's example. -/
theorem claim_c4_witness :
    ∃ d : BucketData,
      bucket1015 = mkSummary bucket1015.period d
      ∧ bucket1015.avgPerSessionHundredths
          = roundHalfEven (100 * ((d.bugs + d.failures + d.errors : Nat) : Int))
              ((max 1 d.sessions.length : Nat) : Int)
      ∧ bucket1015.avgSessionSizeKBTenths
          = roundHalfEven (10 * d.totalSizeBytes) (((max 1 d.sessions.length : Nat) : Int) * 1024)
      ∧ (d.sessions.length = 0 →
          bucket1015.avgPerSessionHundredths
            = roundHalfEven (100 * ((d.bugs + d.failures + d.errors : Nat) : Int)) 1) :=
  claim_c4 [ev1015, ev1045] "hour" 2 [] bucket1015 (by decide)

/-- Claim C5: on the spec's two-event example with range hour,
build_time_series returns exactly the buckets 10:15 and 10:45, each with
one bug and avgPerSession 1.0 (100 hundredths). -/
theorem claim_c5 : build_time_series [ev1015, ev1045] "hour" 2 [] = [bucket1015, bucket1045] := by
  decide

/-- Counterexample for C6: one cli event with a parsable timestamp is
tallied in the bucket's internal clis counter (which equals 1), yet the
emitted summary for its bucket reports zero in every numeric field it
carries; no field of the output row reflects the cli count. -/
theorem claim_c6_counterexample :
    build_time_series [cliEv] "hour" 1 [] = [cliBucketOut]
    ∧ countTy ErrType.cli ((time_buckets (bucket_format "hour") [cliEv] []).data "10:15") = 1
    ∧ ((time_buckets (bucket_format "hour") [cliEv] []).data "10:15").sessions = ["A"] :=
  ⟨by decide, by decide, by decide⟩

/-- Claim C6 as amended: every emitted bucket summary carries the exact
raw counts of the bug, failure and error events counted into it; cli
events with a parsable timestamp are tallied only in the bucket's
internal clis counter, which does not appear in the emitted summary, and
avgPerSession sums only bugs, failures and errors; every bucketed event
(cli included) adds its session id to its bucket's session set. -/
theorem claim_c6 (errors : List ErrorEvent) (r : String) (n : Nat) (stats : List SessionStat)
    (x : TimeBucketOut) (hx : x ∈ build_time_series errors r n stats) :
    x.bugs = errors.countP
        (fun e => decide (bucketOf (bucket_format r) e = some x.period ∧ e.type = ErrType.bug))
    ∧ x.failures = errors.countP
        (fun e => decide (bucketOf (bucket_format r) e = some x.period ∧ e.type = ErrType.failure))
    ∧ x.errors = errors.countP
        (fun e => decide (bucketOf (bucket_format r) e = some x.period ∧ e.type = ErrType.error))
    ∧ countTy ErrType.cli ((time_buckets (bucket_format r) errors stats).data x.period)
        = errors.countP
            (fun e => decide (bucketOf (bucket_format r) e = some x.period ∧ e.type = ErrType.cli))
    ∧ (∀ e ∈ errors, bucketOf (bucket_format r) e = some x.period →
        e.sessionId ∈ ((time_buckets (bucket_format r) errors stats).data x.period).sessions)
    ∧ (∃ d : BucketData, x = mkSummary x.period d
        ∧ x.avgPerSessionHundredths
            = roundHalfEven (100 * ((d.bugs + d.failures + d.errors : Nat) : Int))
                ((max 1 d.sessions.length : Nat) : Int)) := by
  unfold build_time_series at hx
  obtain ⟨k, hk, hxk⟩ := List.mem_map.mp hx
  subst hxk
  exact ⟨count_time_buckets (bucket_format r) errors stats k ErrType.bug,
    count_time_buckets (bucket_format r) errors stats k ErrType.failure,
    count_time_buckets (bucket_format r) errors stats k ErrType.error,
    count_time_buckets (bucket_format r) errors stats k ErrType.cli,
    fun e he hp => time_buckets_sessions_mem (bucket_format r) errors stats e k he hp,
    (time_buckets (bucket_format r) errors stats).data k, rfl, (mkSummary_avg k _).1⟩

/-- Witness for the amended C6 at the concrete one-cli-event input. -/
theorem claim_c6_witness :
    cliBucketOut.bugs = [cliEv].countP
        (fun e => decide (bucketOf (bucket_format "hour") e = some cliBucketOut.period ∧ e.type = ErrType.bug))
    ∧ cliBucketOut.failures = [cliEv].countP
        (fun e => decide (bucketOf (bucket_format "hour") e = some cliBucketOut.period ∧ e.type = ErrType.failure))
    ∧ cliBucketOut.errors = [cliEv].countP
        (fun e => decide (bucketOf (bucket_format "hour") e = some cliBucketOut.period ∧ e.type = ErrType.error))
    ∧ countTy ErrType.cli ((time_buckets (bucket_format "hour") [cliEv] []).data cliBucketOut.period)
        = [cliEv].countP
            (fun e => decide (bucketOf (bucket_format "hour") e = some cliBucketOut.period ∧ e.type = ErrType.cli))
    ∧ (∀ e ∈ [cliEv], bucketOf (bucket_format "hour") e = some cliBucketOut.period →
        e.sessionId ∈ ((time_buckets (bucket_format "hour") [cliEv] []).data cliBucketOut.period).sessions)
    ∧ (∃ d : BucketData, cliBucketOut = mkSummary cliBucketOut.period d
        ∧ cliBucketOut.avgPerSessionHundredths
            = roundHalfEven (100 * ((d.bugs + d.failures + d.errors : Nat) : Int))
                ((max 1 d.sessions.length : Nat) : Int)) :=
  claim_c6 [cliEv] "hour" 1 [] cliBucketOut (by decide)

/-- Claim C7: the emitted bucket rows are sorted by label in strictly
ascending Python string order, and on labels of parsed timestamps that
order coincides with the lexicographic order of the time fields the
chosen format exposes (hour and minute, hour, or month and day). -/
theorem claim_c7 (errors : List ErrorEvent) (r : String) (n : Nat) (stats : List SessionStat)
    (s1 s2 : String) (dt1 dt2 : PyDateTime)
    (h1 : fromisoformat s1 = some dt1) (h2 : fromisoformat s2 = some dt2) :
    List.Sorted labelLt ((build_time_series errors r n stats).map (fun x => x.period))
    ∧ (labelLt (strftime (bucket_format r) dt1) (strftime (bucket_format r) dt2)
        ↔ pairLt (chronoProj (bucket_format r) dt1) (chronoProj (bucket_format r) dt2)) := by
  obtain ⟨hmo1, hd1, hh1, hmi1⟩ := fromisoformat_bounds s1 dt1 h1
  obtain ⟨hmo2, hd2, hh2, hmi2⟩ := fromisoformat_bounds s2 dt2 h2
  refine ⟨build_sorted errors r n stats, ?_⟩
  by_cases hr1 : r = "hour"
  · subst hr1
    rw [bucket_format_hour]
    unfold labelLt
    rw [strftime_hm_lt_iff dt1 dt2 (by omega) (by omega) (by omega) (by omega)]
    simp [chronoProj, pairLt]
  · by_cases hr2 : r = "day"
    · subst hr2
      rw [bucket_format_day]
      unfold labelLt
      rw [strftime_h00_lt_iff dt1 dt2 (by omega) (by omega)]
      simp [chronoProj, pairLt]
    · rw [bucket_format_other r hr1 hr2]
      unfold labelLt
      rw [strftime_md_lt_iff dt1 dt2 (by omega) (by omega) (by omega) (by omega)]
      simp [chronoProj, pairLt]

/-- Witness for C7 at the spec's two example timestamps with range hour. -/
theorem claim_c7_witness :
    List.Sorted labelLt ((build_time_series [] "hour" 0 []).map (fun x => x.period))
    ∧ (labelLt (strftime (bucket_format "hour") ⟨2024, 1, 1, 10, 15, 0⟩)
          (strftime (bucket_format "hour") ⟨2024, 1, 1, 10, 45, 0⟩)
        ↔ pairLt (chronoProj (bucket_format "hour") ⟨2024, 1, 1, 10, 15, 0⟩)
            (chronoProj (bucket_format "hour") ⟨2024, 1, 1, 10, 45, 0⟩)) :=
  claim_c7 [] "hour" 0 [] "2024-01-01T10:15:00+00:00" "2024-01-01T10:45:00+00:00"
    ⟨2024, 1, 1, 10, 15, 0⟩ ⟨2024, 1, 1, 10, 45, 0⟩ (by decide) (by decide)

/-- Claim C8: an event whose timestamp is missing or unparsable is
silently dropped by build_time_series (removing it from any position
leaves the output unchanged, and the aggregation of the other events
still completes), while the errors endpoint keeps that event in the flat
errors list and counts it in the stats totals. -/
theorem claim_c8 :
    (∀ (e : ErrorEvent) (r : String) (n : Nat) (stats : List SessionStat)
      (l1 l2 : List ErrorEvent),
      bucketOf (bucket_format r) e = none →
      build_time_series (l1 ++ e :: l2) r n stats = build_time_series (l1 ++ l2) r n stats)
    ∧ (get_errors "day" [badTsBugRow] [] [] [] []).timeSeries = []
    ∧ ((get_errors "day" [badTsBugRow] [] [] [] []).errors.map (fun e => e.timestamp))
        = ["not-a-date"]
    ∧ (get_errors "day" [badTsBugRow] [] [] [] []).statsBugs = 1 := by
  refine ⟨?_, by decide, by decide, by decide⟩
  intro e r n stats l1 l2 hnone
  simp only [build_time_series, time_buckets]
  rw [List.foldl_append, List.foldl_append, List.foldl_cons]
  have hstep : step_event (bucket_format r) (List.foldl (step_event (bucket_format r)) Buckets.init l1) e
      = List.foldl (step_event (bucket_format r)) Buckets.init l1 := by
    unfold step_event
    rw [hnone]
  rw [hstep]

/-- Witness for C8: appending the unparsable event to the example list
does not change the time series. -/
theorem claim_c8_witness :
    build_time_series ([ev1015] ++ badTsEvent :: []) "hour" 0 []
      = build_time_series ([ev1015] ++ []) "hour" 0 [] :=
  claim_c8.1 badTsEvent "hour" 0 [] [ev1015] [] (by decide)

/-- Claim C9: the aggregator is deterministic and idempotent: two runs
of build_time_series on equal argument lists yield identical output. -/
theorem claim_c9 (e1 e2 : List ErrorEvent) (r1 r2 : String) (n1 n2 : Nat)
    (s1 s2 : List SessionStat) (he : e1 = e2) (hr : r1 = r2) (hn : n1 = n2) (hs : s1 = s2) :
    build_time_series e1 r1 n1 s1 = build_time_series e2 r2 n2 s2 := by
  rw [he, hr, hn, hs]

/-- Witness for C9 at a concrete repeated run. -/
theorem claim_c9_witness :
    build_time_series [ev1015] "hour" 1 [] = build_time_series [ev1015] "hour" 1 [] :=
  claim_c9 [ev1015] [ev1015] "hour" "hour" 1 1 [] [] rfl rfl rfl rfl

/-- Claim C10: every range value other than hour, day, week and month -
including all and any unrecognized string - selects the month/day label
format, exactly like all, and makes get_errors use the fixed query start
date 2020-01-01, exactly like all. -/
theorem claim_c10 (r : String) (h1 : r ≠ "hour") (h2 : r ≠ "day") (h3 : r ≠ "week")
    (h4 : r ≠ "month") :
    bucket_format r = "%m/%d" ∧ bucket_format r = bucket_format "all"
    ∧ query_start r = StartSpec.fixedDate 2020 1 1 ∧ query_start r = query_start "all" := by
  refine ⟨bucket_format_other r h1 h2, ?_, ?_, ?_⟩
  · rw [bucket_format_other r h1 h2]; rfl
  · unfold query_start
    rw [if_neg h1, if_neg h2, if_neg h3, if_neg h4]
  · unfold query_start
    rw [if_neg h1, if_neg h2, if_neg h3, if_neg h4]
    decide

/-- Witness for C10 at a concrete unrecognized range value. -/
theorem claim_c10_witness :
    bucket_format "banana" = "%m/%d" ∧ bucket_format "banana" = bucket_format "all"
    ∧ query_start "banana" = StartSpec.fixedDate 2020 1 1
    ∧ query_start "banana" = query_start "all" :=
  claim_c10 "banana" (by decide) (by decide) (by decide) (by decide)

end ErrorDashboard
